import Mathlib

/-!
Shallow embedding of the deHATEr hate-speech filter core
(`src/deHATEr/age_policy.py` and `src/deHATEr/predict.py`), together with
theorems settling the specification claims about it.

Scores and thresholds are modelled as rationals; Python `None` / non-numeric
inputs are modelled by an explicit `PyValue` type; the torch runtime (device
availability, allocation probes, forward-pass failures) is modelled by
explicit environment records and outcome parameters, since those are external
inputs to the code under verification.
-/

namespace DeHATEr

/-- Translation of the frozen dataclass `AgePolicy` of `age_policy.py`:
`max_age` (inclusive upper bound), `threshold`, `allow_unblock`. -/
structure AgePolicy where
  max_age : Int
  threshold : ℚ
  allow_unblock : Bool
deriving DecidableEq, Repr

/-- Translation of `_DEFAULT_POLICIES` of `age_policy.py` (lines 15-19):
thresholds 0.25, 0.35, 0.55 as exact rationals. -/
def defaultPolicies : List AgePolicy :=
  [ ⟨12, 1/4, false⟩,
    ⟨17, 7/20, true⟩,
    ⟨200, 11/20, true⟩ ]

/-- Model of the Python values that can be passed to `resolve` as `age`:
`None`, an `int`, a (finite) `float` modelled as a rational, a string, or any
other non-numeric object. -/
inductive PyValue where
  | pyNone
  | pyInt (n : Int)
  | pyFloat (q : ℚ)
  | pyStr (s : String)
  | pyOther
deriving DecidableEq, Repr

/-- Truncation toward zero, the behaviour of Python `int()` on a (finite)
float: `int(12.9) = 12`, `int(-12.9) = -12`. -/
def ratTrunc (q : ℚ) : Int :=
  if 0 ≤ q then ⌊q⌋ else ⌈q⌉

/-- Digit value of a decimal digit character, `none` otherwise. -/
def digitVal (c : Char) : Option Nat :=
  if c.isDigit then some (c.toNat - 48) else none

/-- Decimal value of a non-empty list of digit characters, `none` if the
list is empty or holds a non-digit. -/
def parseNatDigits (cs : List Char) : Option Nat :=
  if cs.isEmpty then none
  else
    cs.foldl
      (fun acc c =>
        match acc, digitVal c with
        | some a, some d => some (a * 10 + d)
        | _, _ => none)
      (some 0)

/-- Modelled behaviour of Python `int()` on a string: an optional sign
followed by decimal digits. Whitespace and underscore forms accepted by
Python are out of scope here and treated as failures; no claim depends on
them. -/
def str_to_int (s : String) : Option Int :=
  match s.toList with
  | '-' :: rest => (parseNatDigits rest).map (fun n => -(n : Int))
  | '+' :: rest => (parseNatDigits rest).map (fun n => (n : Int))
  | cs => (parseNatDigits cs).map (fun n => (n : Int))

/-- Model of the `int(age)` coercion at `age_policy.py` lines 34-37:
`.error ()` stands for the `TypeError` / `ValueError` caught there. -/
def py_int : PyValue → Except Unit Int
  | .pyNone => .error ()
  | .pyInt n => .ok n
  | .pyFloat q => .ok (ratTrunc q)
  | .pyStr s =>
    match str_to_int s with
    | some n => .ok n
    | none => .error ()
  | .pyOther => .error ()

/-- Translation of the scan loop of `AgePolicyResolver.resolve`
(`age_policy.py` lines 42-44): first policy with `integer_age <= max_age`. -/
def resolveAux (a : Int) : List AgePolicy → Option AgePolicy
  | [] => none
  | p :: ps => if a ≤ p.max_age then some p else resolveAux a ps

/-- Translation of `AgePolicyResolver.resolve` (`age_policy.py` lines 28-46)
over an explicit policy table. `none` models the `IndexError` an empty table
would raise on `self._policies[0]` / `self._policies[-1]`. -/
def resolve (policies : List AgePolicy) (age : PyValue) : Option AgePolicy :=
  if age = .pyNone then policies.head?
  else
    match py_int age with
    | .error _ => policies.head?
    | .ok n =>
      if n < 0 then policies.head?
      else
        match resolveAux n policies with
        | some p => some p
        | none => policies.getLast?

/-- Which return statement of `resolve` produced the result: the `age is
None` branch (line 32), the coercion-failure branch (line 37), the negative
branch (line 40), the scan (line 44), or the final catch-all (line 46). -/
inductive ResolveBranch where
  | noneBranch
  | coerceFail
  | negative
  | scan
  | lastFallback
deriving DecidableEq, Repr

/-- Control-flow companion of `resolve`: which branch of
`AgePolicyResolver.resolve` returns, mirroring the same source lines. -/
def resolve_branch (policies : List AgePolicy) (age : PyValue) : ResolveBranch :=
  if age = .pyNone then .noneBranch
  else
    match py_int age with
    | .error _ => .coerceFail
    | .ok n =>
      if n < 0 then .negative
      else
        match resolveAux n policies with
        | some _ => .scan
        | none => .lastFallback

/-- Translation of `AgePolicyResolver.__init__` (`age_policy.py` lines
25-26): `policies or _DEFAULT_POLICIES` tests Python truthiness, so both
`None` and the empty tuple are replaced by the default table. -/
def AgePolicyResolver_init (policies : Option (List AgePolicy)) : List AgePolicy :=
  match policies with
  | none => defaultPolicies
  | some ps => if ps = [] then defaultPolicies else ps

/-- Translation of the module-level `resolve_policy` (`age_policy.py` lines
49-55): the shared resolver is built with no argument, hence the default
table. -/
def resolve_policy (age : PyValue) : Option AgePolicy :=
  resolve (AgePolicyResolver_init none) age

/-- Translation of the dict returned by
`TransformerAgeAwareClassifier.classify` (`predict.py` lines 203-207). -/
structure ClassificationResult where
  score : ℚ
  should_block : Bool
  age_policy : AgePolicy
deriving DecidableEq, Repr

/-- Translation of `TransformerAgeAwareClassifier.classify` (`predict.py`
lines 199-207). The neural-network probability returned by `_score_text` is
an external input here, abstracted as the `score` argument; the decision
logic `should_block = score >= policy.threshold` is translated exactly.
`none` models the `IndexError` of an empty policy table. -/
def classify (score : ℚ) (age : PyValue) : Option ClassificationResult :=
  match resolve_policy age with
  | some policy => some ⟨score, decide (policy.threshold ≤ score), policy⟩
  | none => none

/-- Model of the torch runtime facts consulted by `_select_device`
(`predict.py` lines 43-90): capability flags and whether the trivial
allocation probe `torch.zeros(1).to(device)` succeeds (raising
`RuntimeError` otherwise). -/
structure TorchEnv where
  cuda_available : Bool
  cuda_alloc_ok : Bool
  mps_backend_present : Bool
  mps_available : Bool
  mps_alloc_ok : Bool
  dml_installed : Bool
  dml_device_ok : Bool
deriving DecidableEq, Repr

/-- Model of the Python exceptions raised by `_select_device`. -/
inductive PyError where
  | runtimeError (msg : String)
  | valueError (msg : String)
deriving DecidableEq, Repr

/-- Translation of `_has_directml` (`predict.py` lines 33-40): the module is
importable and `torch_directml.device()` does not raise. -/
def has_directml (env : TorchEnv) : Bool :=
  env.dml_installed && env.dml_device_ok

/-- ASCII lowering of one character, the behaviour of Python `str.lower()`
on the ASCII device names this code handles. -/
def char_lower (c : Char) : Char :=
  if 'A' ≤ c ∧ c ≤ 'Z' then Char.ofNat (c.toNat + 32) else c

/-- Model of Python `str.lower()` (`explicit.lower()` at `predict.py` line
47), restricted to ASCII, which covers every device-name string the
selector compares against. -/
def str_lower (s : String) : String :=
  String.mk (s.data.map char_lower)

/-- Translation of the auto-detect tail of `_select_device` (`predict.py`
lines 75-90): try cuda (capability + probe), then mps (capability + probe),
then directml (capability only), else cpu; a failed probe falls through to
the next candidate. -/
def select_device_auto (env : TorchEnv) : String :=
  if env.cuda_available ∧ env.cuda_alloc_ok then "cuda"
  else if env.mps_backend_present ∧ env.mps_available ∧ env.mps_alloc_ok then "mps"
  else if has_directml env then "dml"
  else "cpu"

/-- Translation of `_select_device` (`predict.py` lines 43-90). A `none` or
empty explicit string is falsy in Python (`if explicit:`) and takes the
auto-detect path. -/
def select_device (explicit : Option String) (env : TorchEnv) : Except PyError String :=
  match explicit with
  | none => .ok (select_device_auto env)
  | some s =>
    if s = "" then .ok (select_device_auto env)
    else
      let choice := str_lower s
      if choice = "cuda" ∨ choice = "gpu" then
        if env.cuda_available then
          if env.cuda_alloc_ok then .ok "cuda" else .ok "cpu"
        else .ok "cpu"
      else if choice = "mps" then
        if env.mps_backend_present ∧ env.mps_available then
          if env.mps_alloc_ok then .ok "mps" else .ok "cpu"
        else .error (.runtimeError "MPS requested but not available on this system.")
      else if choice = "dml" ∨ choice = "directml" then
        if has_directml env then .ok "dml"
        else .error (.runtimeError "DirectML requested but torch-directml is not installed.")
      else if choice = "cpu" then .ok "cpu"
      else .error (.valueError ("Unsupported device override " ++ s))

/-- Translation of the effective-maximum-length computation of
`TransformerAgeAwareClassifier.__init__` (`predict.py` lines 105-114).
`tok_max` is `model_max_length` when it is an `int` (`none` otherwise);
`cfg_max_pos` is `max_position_embeddings` when it is an `int`. -/
def effective_max_length (tok_max : Option Int) (cfg_max_pos : Option Int) : Int :=
  let m1 : Int :=
    match tok_max with
    | some m => if 0 < m ∧ m ≤ 4096 then m else 512
    | none => 512
  let m2 : Int :=
    match cfg_max_pos with
    | some c => if 2 < c then min m1 (c - 2) else m1
    | none => m1
  max m2 8

/-- Lowercased-message substring facts consulted by the failure handlers of
`predict.py` (lines 130-148 and 165-195): whether the message contains each
recognized token. -/
structure ErrMsg where
  has_hip_error : Bool
  has_invalid_device_function : Bool
  has_cuda : Bool
  has_cublas : Bool
  has_cudnn : Bool
  has_directml : Bool
deriving DecidableEq, Repr

/-- The failure-signature test shared by the `except RuntimeError` handlers
of `__init__` (`predict.py` lines 130-148) and `_score_text` (lines
168-195): hip / invalid-device-function on any device, cuda / cublas /
cudnn only while on cuda, directml only while on dml; all three branches
downgrade to cpu. -/
def recognized_failure (device : String) (m : ErrMsg) : Bool :=
  m.has_hip_error || m.has_invalid_device_function
    || (device == "cuda" && (m.has_cuda || m.has_cublas || m.has_cudnn))
    || (device == "dml" && m.has_directml)

/-- Translation of the weight-move failure handler of
`TransformerAgeAwareClassifier.__init__` (`predict.py` lines 118-148):
`move_outcome` is the `RuntimeError` raised by `model.to(...)`, if any; a
recognized failure downgrades the device to cpu, anything else re-raises. -/
def init_device_step (device : String) (move_outcome : Option ErrMsg) :
    Except ErrMsg String :=
  match move_outcome with
  | none => .ok device
  | some m => if recognized_failure device m then .ok "cpu" else .error m

/-- Outcome of one forward pass `self.model(**encoded)` (`predict.py` lines
167, 176, 185, 193), an external input: a score or a `RuntimeError`. -/
inductive ForwardResult where
  | fwOk (score : ℚ)
  | fwFail (m : ErrMsg)
deriving DecidableEq, Repr

/-- One forward-pass attempt as observed from outside: which device the
encoded tensors were moved to, and whether the reduced-precision
(`torch.autocast` float16) mode was in effect for that device. -/
structure Attempt where
  tensors_device : String
  reduced_precision : Bool
deriving DecidableEq, Repr

/-- Translation of `_autocast_context` (`predict.py` lines 160-163): the
reduced-precision mode is in effect exactly on cuda; every other device gets
`nullcontext`. -/
def autocast_reduced (device : String) : Bool :=
  device == "cuda"

/-- Observable outcome of one `_score_text` call: the forward attempts made
(in order), the device field the engine is left with, and the returned score
or propagated error. -/
structure ScoreTrace where
  attempts : List Attempt
  final_device : String
  result : Except ErrMsg ℚ
deriving Repr

/-- Translation of the inference path of
`TransformerAgeAwareClassifier._score_text` (`predict.py` lines 150-197).
`first` is the outcome of the forward pass on the current device, `retry`
the outcome of the forward pass on cpu should the handler retry; on a
recognized failure the handler sets the device to cpu, re-encodes the
tensors for cpu and retries exactly once, otherwise the error re-raises. -/
def score_text (device : String) (first retry : ForwardResult) : ScoreTrace :=
  let att1 : Attempt := ⟨device, autocast_reduced device⟩
  match first with
  | .fwOk v => ⟨[att1], device, .ok v⟩
  | .fwFail m =>
    if recognized_failure device m then
      let att2 : Attempt := ⟨"cpu", autocast_reduced "cpu"⟩
      match retry with
      | .fwOk v => ⟨[att1, att2], "cpu", .ok v⟩
      | .fwFail m2 => ⟨[att1, att2], "cpu", .error m2⟩
    else ⟨[att1], device, .error m⟩

/-- Device evolution of an engine across a sequence of `_score_text` calls,
each call described by its pair of forward-pass outcomes. -/
def run_device : String → List (ForwardResult × ForwardResult) → String
  | d, [] => d
  | d, (f, r) :: rest => run_device (score_text d f r).final_device rest

/-! Helper lemmas -/

/-- On a non-empty policy table, `resolve` always produces a policy: every
return path is `policies[0]`, a scan hit, or `policies[-1]`. -/
theorem resolve_isSome (table : List AgePolicy) (age : PyValue) (h : table ≠ []) :
    (resolve table age).isSome := by
  have hh : table.head?.isSome := by
    rcases table with _ | ⟨p, ps⟩
    · exact absurd rfl h
    · rfl
  have hl : table.getLast?.isSome := by
    rw [List.getLast?_eq_getLast_of_ne_nil h]
    rfl
  unfold resolve
  split
  · exact hh
  · split
    · exact hh
    · split
      · exact hh
      · split
        · rfl
        · exact hl

/-- The scan loop of `resolve` is exactly a first-match search. -/
theorem resolveAux_eq_find (a : Int) (l : List AgePolicy) :
    resolveAux a l = l.find? (fun p => decide (a ≤ p.max_age)) := by
  induction l with
  | nil => rfl
  | cons p ps ih =>
    by_cases h : a ≤ p.max_age
    · simp [resolveAux, List.find?, h]
    · simp [resolveAux, List.find?, h, ih]

/-- Closed form of the default resolver on integer ages: the strict bucket
up to 12 (negative ages included via the fail-safe branch), the intermediate
bucket up to 17, and the catch-all above. -/
theorem resolve_policy_int (a : Int) :
    resolve_policy (.pyInt a) =
      some (if a ≤ 12 then (⟨12, 1/4, false⟩ : AgePolicy)
            else if a ≤ 17 then ⟨17, 7/20, true⟩
            else ⟨200, 11/20, true⟩) := by
  by_cases h1 : a ≤ 12
  · by_cases h0 : a < 0
    · simp [resolve_policy, AgePolicyResolver_init, resolve, py_int, h0, h1,
        defaultPolicies]
    · simp [resolve_policy, AgePolicyResolver_init, resolve, py_int, h0, h1,
        resolveAux, defaultPolicies]
  · have h0 : ¬ a < 0 := by omega
    by_cases h2 : a ≤ 17
    · simp [resolve_policy, AgePolicyResolver_init, resolve, py_int, h0, h1, h2,
        resolveAux, defaultPolicies]
    · by_cases h3 : a ≤ 200
      · simp [resolve_policy, AgePolicyResolver_init, resolve, py_int, h0, h1, h2,
          h3, resolveAux, defaultPolicies]
      · simp [resolve_policy, AgePolicyResolver_init, resolve, py_int, h0, h1, h2,
          h3, resolveAux, defaultPolicies]

/-- Threshold resolved by the default table for an integer age. -/
def default_threshold (a : Int) : ℚ :=
  ((resolve_policy (.pyInt a)).map AgePolicy.threshold).getD 0

/-! Claims about the age-policy resolver and the decision rule -/

/-- C1: for every score and age, `classify` returns a record whose
`should_block` field is `score >= threshold` for the policy resolved for
that age; with the default table, age 10 at score 0.30 blocks (threshold
0.25), age 16 at score 0.30 does not (threshold 0.35), and age 40 at score
0.60 blocks (threshold 0.55). -/
theorem classify_should_block_matches_policy :
    (∀ (score : ℚ) (age : PyValue), ∃ p r,
      resolve_policy age = some p ∧
      classify score age = some r ∧
      r.should_block = decide (p.threshold ≤ score) ∧
      r.score = score ∧ r.age_policy = p)
    ∧ classify (3/10) (.pyInt 10) = some ⟨3/10, true, ⟨12, 1/4, false⟩⟩
    ∧ classify (3/10) (.pyInt 16) = some ⟨3/10, false, ⟨17, 7/20, true⟩⟩
    ∧ classify (6/10) (.pyInt 40) = some ⟨6/10, true, ⟨200, 11/20, true⟩⟩ := by
  refine ⟨?_,
    by simp only [classify, resolve_policy_int]; norm_num,
    by simp only [classify, resolve_policy_int]; norm_num,
    by simp only [classify, resolve_policy_int]; norm_num⟩
  intro score age
  have h : (resolve_policy age).isSome :=
    resolve_isSome _ age (by simp [AgePolicyResolver_init, defaultPolicies])
  rcases hp : resolve_policy age with _ | p
  · rw [hp] at h
    exact absurd h (by simp)
  · exact ⟨p, ⟨score, decide (p.threshold ≤ score), p⟩, rfl,
      by simp [classify, hp], rfl, rfl, rfl⟩

/-- C6: for a non-negative integer age and a non-empty table, `resolve`
returns the first policy in table order with `max_age >= age`, and the last
policy of the table when none matches. -/
theorem resolve_first_match (table : List AgePolicy) (a : Int)
    (h0 : 0 ≤ a) (hne : table ≠ []) :
    (∀ p, table.find? (fun q => decide (a ≤ q.max_age)) = some p →
        resolve table (.pyInt a) = some p)
    ∧ (table.find? (fun q => decide (a ≤ q.max_age)) = none →
        resolve table (.pyInt a) = some (table.getLast hne)) := by
  have hneg : ¬ a < 0 := by omega
  constructor
  · intro p hp
    simp [resolve, py_int, hneg, resolveAux_eq_find, hp]
  · intro hp
    simp [resolve, py_int, hneg, resolveAux_eq_find, hp,
      List.getLast?_eq_getLast_of_ne_nil hne]

/-- Witness for C6 on the default table: age 5 matches the first bucket. -/
theorem resolve_first_match_witness :
    resolve defaultPolicies (.pyInt 5) = some ⟨12, 1/4, false⟩ :=
  (resolve_first_match defaultPolicies 5 (by decide) (by decide)).1 _ rfl

/-- C7: `None`, non-numeric, and negative ages all resolve to the first
policy of the table; on the default table that policy is
`(max_age 12, threshold 0.25, allow_unblock false)`, which has the least
`max_age` and least threshold of the table and differs from the catch-all. -/
theorem resolve_bad_age_strictest :
    (∀ (table : List AgePolicy) (hne : table ≠ []) (n : Int), n < 0 →
        resolve table (.pyInt n) = some (table.head hne))
    ∧ (∀ (table : List AgePolicy) (hne : table ≠ []),
        resolve table .pyNone = some (table.head hne))
    ∧ (∀ (table : List AgePolicy) (hne : table ≠ []),
        resolve table .pyOther = some (table.head hne))
    ∧ (∀ (table : List AgePolicy) (hne : table ≠ []) (s : String),
        str_to_int s = none → resolve table (.pyStr s) = some (table.head hne))
    ∧ resolve_policy .pyNone = some ⟨12, 1/4, false⟩
    ∧ (∀ p ∈ defaultPolicies, (12 : Int) ≤ p.max_age ∧ (1/4 : ℚ) ≤ p.threshold)
    ∧ defaultPolicies.getLast? = some ⟨200, 11/20, true⟩ := by
  have hmem : ∀ p ∈ defaultPolicies,
      (12 : Int) ≤ p.max_age ∧ (1/4 : ℚ) ≤ p.threshold := by
    intro p hp
    simp only [defaultPolicies, List.mem_cons, List.not_mem_nil, or_false] at hp
    rcases hp with h | h | h <;> subst h <;> exact ⟨by norm_num, by norm_num⟩
  refine ⟨?_, ?_, ?_, ?_,
    by simp [resolve_policy, AgePolicyResolver_init, resolve, defaultPolicies],
    hmem, rfl⟩
  · intro table hne n hn
    simp [resolve, py_int, hn, List.head?_eq_head hne]
  · intro table hne
    simp [resolve, List.head?_eq_head hne]
  · intro table hne
    simp [resolve, py_int, List.head?_eq_head hne]
  · intro table hne s hs
    simp [resolve, py_int, hs, List.head?_eq_head hne]

/-- Witness for C7: a negative age and a non-numeric string on the default
table both yield the strict bucket. -/
theorem resolve_bad_age_strictest_witness :
    resolve defaultPolicies (.pyInt (-3)) = some ⟨12, 1/4, false⟩ ∧
    resolve defaultPolicies (.pyStr "abc") = some ⟨12, 1/4, false⟩ :=
  ⟨resolve_bad_age_strictest.1 defaultPolicies (by decide) (-3) (by decide),
   resolve_bad_age_strictest.2.2.2.1 defaultPolicies (by decide) "abc" (by decide)⟩

/-- C8: on the default table the resolved threshold is monotone in the
integer age. -/
theorem default_threshold_monotone (a1 a2 : Int) (h : a1 ≤ a2) :
    default_threshold a1 ≤ default_threshold a2 := by
  unfold default_threshold
  rw [resolve_policy_int, resolve_policy_int]
  split_ifs
  all_goals try (exfalso; omega)
  all_goals simp only [Option.map_some', Option.getD_some]
  all_goals norm_num

/-- Witness for C8 at ages 10 and 40. -/
theorem default_threshold_monotone_witness :
    (10 : Int) ≤ 40 ∧ default_threshold 10 ≤ default_threshold 40 :=
  ⟨by decide, default_threshold_monotone 10 40 (by decide)⟩

/-- C9: constructing the resolver with an empty list substitutes the default
table (Python truthiness of the argument), so the resolver's table is never
empty and `resolve` always returns a policy. -/
theorem init_empty_table_defaults :
    AgePolicyResolver_init (some []) = defaultPolicies
    ∧ (∀ arg, ∃ p ps, AgePolicyResolver_init arg = p :: ps)
    ∧ (∀ arg age, (resolve (AgePolicyResolver_init arg) age).isSome) := by
  have hne : ∀ arg, AgePolicyResolver_init arg ≠ [] := by
    intro arg
    rcases arg with _ | ps
    · simp [AgePolicyResolver_init, defaultPolicies]
    · by_cases h : ps = [] <;> simp [AgePolicyResolver_init, h, defaultPolicies]
  refine ⟨rfl, ?_, ?_⟩
  · intro arg
    rcases htab : AgePolicyResolver_init arg with _ | ⟨p, ps⟩
    · exact absurd htab (hne arg)
    · exact ⟨p, ps, rfl⟩
  · intro arg age
    exact resolve_isSome _ age (hne arg)

/-- C10: `resolve` coerces floats by truncation toward zero and numeric
strings by parsing (12.9 hits the strict bucket, "15" resolves like 15); the
coercion-failure return path is taken exactly for non-`None` values whose
coercion fails, and every coercion failure yields the first policy. -/
theorem resolve_coercion_behaviour :
    (∀ (table : List AgePolicy) (q : ℚ),
        resolve table (.pyFloat q) = resolve table (.pyInt (ratTrunc q)))
    ∧ ratTrunc (129/10) = 12
    ∧ resolve_policy (.pyFloat (129/10)) = some ⟨12, 1/4, false⟩
    ∧ (∀ (table : List AgePolicy) (s : String) (n : Int),
        str_to_int s = some n →
        resolve table (.pyStr s) = resolve table (.pyInt n))
    ∧ str_to_int "15" = some 15
    ∧ resolve_policy (.pyStr "15") = some ⟨17, 7/20, true⟩
    ∧ (∀ (table : List AgePolicy) (v : PyValue),
        resolve_branch table v = .coerceFail ↔
          v ≠ .pyNone ∧ py_int v = .error ())
    ∧ (∀ (table : List AgePolicy) (v : PyValue),
        py_int v = .error () → resolve table v = table.head?) := by
  have hfloat : ∀ (table : List AgePolicy) (q : ℚ),
      resolve table (.pyFloat q) = resolve table (.pyInt (ratTrunc q)) := by
    intro table q
    simp [resolve, py_int]
  have hstr : ∀ (table : List AgePolicy) (s : String) (n : Int),
      str_to_int s = some n →
      resolve table (.pyStr s) = resolve table (.pyInt n) := by
    intro table s n hs
    simp [resolve, py_int, hs]
  have htrunc : ratTrunc (129/10) = 12 := by
    simp only [ratTrunc]
    rw [if_pos (by norm_num), Int.floor_eq_iff]
    norm_num
  have h15 : str_to_int "15" = some 15 := by decide
  refine ⟨hfloat, htrunc, ?_, hstr, h15, ?_, ?_, ?_⟩
  · rw [show resolve_policy (.pyFloat (129/10)) =
        resolve (AgePolicyResolver_init none) (.pyFloat (129/10)) from rfl,
      hfloat _ (129/10), htrunc,
      show resolve (AgePolicyResolver_init none) (.pyInt 12) =
        resolve_policy (.pyInt 12) from rfl,
      resolve_policy_int]
    norm_num
  · rw [show resolve_policy (.pyStr "15") =
        resolve (AgePolicyResolver_init none) (.pyStr "15") from rfl,
      hstr _ "15" 15 h15,
      show resolve (AgePolicyResolver_init none) (.pyInt 15) =
        resolve_policy (.pyInt 15) from rfl,
      resolve_policy_int]
    norm_num
  · intro table v
    rcases v with _ | n | q | s | _
    · simp [resolve_branch]
    · simp [resolve_branch, py_int]
      split
      · simp
      · split <;> simp
    · simp [resolve_branch, py_int]
      split
      · simp
      · split <;> simp
    · rcases hs : str_to_int s with _ | n
      · simp [resolve_branch, py_int, hs]
      · simp [resolve_branch, py_int, hs]
        split
        · simp
        · split <;> simp
    · simp [resolve_branch, py_int]
  · intro table v hv
    rcases v with _ | n | q | s | _
    · simp [resolve]
    · exact Except.noConfusion hv
    · exact Except.noConfusion hv
    · rcases hs : str_to_int s with _ | n
      · simp [resolve, py_int, hs]
      · simp [py_int, hs] at hv
    · simp [resolve, py_int]

/-- Witness for C10: the string "15" resolves like the integer 15 on the
default table, and a non-numeric value resolves to the first policy. -/
theorem resolve_coercion_behaviour_witness :
    resolve defaultPolicies (.pyStr "15") = resolve defaultPolicies (.pyInt 15) ∧
    resolve defaultPolicies .pyOther = defaultPolicies.head? :=
  ⟨resolve_coercion_behaviour.2.2.2.1 defaultPolicies "15" 15 (by decide),
   resolve_coercion_behaviour.2.2.2.2.2.2.2 defaultPolicies .pyOther rfl⟩

/-! Claims about device selection, sequence length and failure recovery -/

/-- Environment in which the MPS backend reports available but the trivial
allocation probe raises `RuntimeError`. -/
def mpsProbeFailEnv : TorchEnv :=
  ⟨false, false, true, true, false, false, false⟩

/-- C2 counterexample: with MPS available but the allocation probe failing,
an explicit request for mps silently selects cpu instead of raising. -/
theorem mps_probe_failure_falls_back_to_cpu :
    select_device (some "mps") mpsProbeFailEnv = .ok "cpu" := by
  simp [select_device, str_lower, char_lower, mpsProbeFailEnv]

/-- C2 (amended): an explicit mps request is a hard error only when the MPS
backend is unavailable; when the backend is available, a failed allocation
probe silently falls back to cpu, and a successful probe yields mps. -/
theorem select_device_mps_explicit (env : TorchEnv) :
    (env.mps_backend_present = true → env.mps_available = true →
      env.mps_alloc_ok = false →
      select_device (some "mps") env = .ok "cpu")
    ∧ (env.mps_backend_present = true → env.mps_available = true →
      env.mps_alloc_ok = true →
      select_device (some "mps") env = .ok "mps")
    ∧ (¬(env.mps_backend_present = true ∧ env.mps_available = true) →
      select_device (some "mps") env =
        .error (.runtimeError "MPS requested but not available on this system.")) := by
  have hred : select_device (some "mps") env =
      if env.mps_backend_present ∧ env.mps_available then
        (if env.mps_alloc_ok then .ok "mps" else .ok "cpu")
      else .error (.runtimeError "MPS requested but not available on this system.") := by
    simp [select_device, str_lower, char_lower]
  refine ⟨?_, ?_, ?_⟩
  · intro h1 h2 h3
    rw [hred, if_pos ⟨h1, h2⟩, if_neg (by simp [h3])]
  · intro h1 h2 h3
    rw [hred, if_pos ⟨h1, h2⟩, if_pos h3]
  · intro h
    rw [hred, if_neg h]

/-- Witness for C2: both amended behaviours at concrete environments. -/
theorem select_device_mps_explicit_witness :
    select_device (some "mps") mpsProbeFailEnv = .ok "cpu" ∧
    select_device (some "mps") ⟨false, false, false, false, false, false, false⟩ =
      .error (.runtimeError "MPS requested but not available on this system.") :=
  ⟨(select_device_mps_explicit mpsProbeFailEnv).1 rfl rfl rfl,
   (select_device_mps_explicit ⟨false, false, false, false, false, false, false⟩).2.2
     (by intro h; exact absurd h.1 (by decide))⟩

/-- C3 counterexample: with positional-embedding capacity 4 (which is
greater than 2) and tokenizer default 512, the computed length is 8, which
is neither inside the open-below interval (8, 4096] nor at most
capacity minus 2. -/
theorem effective_max_length_small_capacity :
    (2 : Int) < 4 ∧
    effective_max_length (some 512) (some 4) = 8 ∧
    (4 - 2 : Int) < 8 := by
  refine ⟨by norm_num, by decide, by norm_num⟩

/-- C3 (amended): for every tokenizer-reported default and every capacity
greater than 2, the effective maximum length lies in the closed interval
[8, 4096] and never exceeds the larger of capacity minus 2 and 8. -/
theorem effective_max_length_bounds (tok_max : Option Int) (cap : Int)
    (hcap : 2 < cap) :
    8 ≤ effective_max_length tok_max (some cap) ∧
    effective_max_length tok_max (some cap) ≤ 4096 ∧
    effective_max_length tok_max (some cap) ≤ max (cap - 2) 8 := by
  rcases tok_max with _ | m <;>
    simp only [effective_max_length] <;>
    rw [if_pos hcap]
  · refine ⟨by omega, by omega, by omega⟩
  · split_ifs with hm
    · refine ⟨by omega, by omega, by omega⟩
    · refine ⟨by omega, by omega, by omega⟩

/-- Witness for C3 at tokenizer default 512 and capacity 1000. -/
theorem effective_max_length_bounds_witness :
    (2 : Int) < 1000 ∧
    (8 ≤ effective_max_length (some 512) (some 1000) ∧
     effective_max_length (some 512) (some 1000) ≤ 4096 ∧
     effective_max_length (some 512) (some 1000) ≤ max (1000 - 2) 8) :=
  ⟨by norm_num, effective_max_length_bounds (some 512) 1000 (by norm_num)⟩

/-- On a cpu engine, `_score_text` leaves the device on cpu whatever the
forward passes do. -/
theorem score_text_cpu_final (f r : ForwardResult) :
    (score_text "cpu" f r).final_device = "cpu" := by
  rcases f with v | m
  · rfl
  · simp only [score_text]
    split <;> rcases r with v | m2 <;> rfl

/-- C4: device transitions at construction and at every inference call go
only toward cpu, and cpu is absorbing across any sequence of inference
calls. -/
theorem device_downgrade_one_directional :
    (∀ (d : String) (f r : ForwardResult),
        (score_text d f r).final_device = d ∨
        (score_text d f r).final_device = "cpu")
    ∧ (∀ (d : String) (o : Option ErrMsg) (d2 : String),
        init_device_step d o = .ok d2 → d2 = d ∨ d2 = "cpu")
    ∧ (∀ calls, run_device "cpu" calls = "cpu") := by
  refine ⟨?_, ?_, ?_⟩
  · intro d f r
    rcases f with v | m
    · exact Or.inl rfl
    · simp only [score_text]
      split
      · rcases r with v | m2
        · exact Or.inr rfl
        · exact Or.inr rfl
      · exact Or.inl rfl
  · intro d o d2 h
    rcases o with _ | m
    · exact Or.inl (Except.ok.inj h).symm
    · simp only [init_device_step] at h
      split at h
      · exact Or.inr (Except.ok.inj h).symm
      · exact Except.noConfusion h
  · intro calls
    induction calls with
    | nil => rfl
    | cons c rest ih =>
      rcases c with ⟨f, r⟩
      simp only [run_device, score_text_cpu_final]
      exact ih

/-- Witness for C4: a successful weight move keeps the requested device. -/
theorem device_downgrade_one_directional_witness :
    init_device_step "cuda" none = .ok "cuda" ∧
    ("cuda" = "cuda" ∨ ("cuda" : String) = "cpu") :=
  ⟨rfl, device_downgrade_one_directional.2.1 "cuda" none "cuda" rfl⟩

/-- The boolean failure-signature test agrees with its description: hip or
invalid-device-function anywhere, cuda-family tokens only on cuda, directml
only on dml. -/
theorem recognized_failure_iff (d : String) (m : ErrMsg) :
    recognized_failure d m = true ↔
      (m.has_hip_error = true ∨ m.has_invalid_device_function = true ∨
       (d = "cuda" ∧ (m.has_cuda = true ∨ m.has_cublas = true ∨ m.has_cudnn = true)) ∨
       (d = "dml" ∧ m.has_directml = true)) := by
  simp [recognized_failure, Bool.or_eq_true, Bool.and_eq_true, or_assoc]

/-- C5: a forward-pass failure with a recognized signature makes
`_score_text` downgrade to cpu, re-encode for cpu, and retry exactly once
without the reduced-precision mode, the retry outcome becoming the result;
an unrecognized failure propagates unchanged with no retry. -/
theorem score_text_recovery (d : String) (f r : ForwardResult) (m : ErrMsg) :
    (f = .fwFail m →
      (m.has_hip_error = true ∨ m.has_invalid_device_function = true ∨
       (d = "cuda" ∧ (m.has_cuda = true ∨ m.has_cublas = true ∨ m.has_cudnn = true)) ∨
       (d = "dml" ∧ m.has_directml = true)) →
      score_text d f r =
        ⟨[⟨d, autocast_reduced d⟩, ⟨"cpu", false⟩], "cpu",
          match r with
          | .fwOk v => .ok v
          | .fwFail m2 => .error m2⟩)
    ∧ (f = .fwFail m →
      ¬(m.has_hip_error = true ∨ m.has_invalid_device_function = true ∨
       (d = "cuda" ∧ (m.has_cuda = true ∨ m.has_cublas = true ∨ m.has_cudnn = true)) ∨
       (d = "dml" ∧ m.has_directml = true)) →
      score_text d f r = ⟨[⟨d, autocast_reduced d⟩], d, .error m⟩) := by
  constructor
  · intro hf hm
    subst hf
    have hrec : recognized_failure d m = true := (recognized_failure_iff d m).mpr hm
    simp only [score_text, hrec]
    rcases r with v | m2 <;> rfl
  · intro hf hm
    subst hf
    have hrec : recognized_failure d m = false := by
      rcases hb : recognized_failure d m
      · rfl
      · exact absurd ((recognized_failure_iff d m).mp hb) hm
    simp only [score_text, hrec]
    rfl

/-- Witness for C5: a cublas failure on cuda is recovered on cpu at full
precision, returning the retry score. -/
theorem score_text_recovery_witness :
    score_text "cuda" (.fwFail ⟨false, false, false, true, false, false⟩) (.fwOk 1) =
      ⟨[⟨"cuda", autocast_reduced "cuda"⟩, ⟨"cpu", false⟩], "cpu", .ok 1⟩ :=
  (score_text_recovery "cuda" (.fwFail ⟨false, false, false, true, false, false⟩)
      (.fwOk 1) ⟨false, false, false, true, false, false⟩).1 rfl
    (Or.inr (Or.inr (Or.inl ⟨rfl, Or.inr (Or.inl rfl)⟩)))

end DeHATEr
